import Mathlib

/-!
Shallow embedding of `scripts/civitai_downloader.py` and
`scripts/civitai_api.py` (sd-webui-civitai-downloader).

External effects (HTTP responses, the streamed download, the config and
default-key files, the destination file) are modelled as explicit inputs
in an environment record; each code path of the two `download_model`
workflows is translated branch-for-branch.  Error-message return sites of
the Python code are represented by constructors of `ApiErr` / `WErr`: each
constructor corresponds to exactly one distinct message string in the
source (noted in comments), so the classification is the branch taken.
-/

deriving instance DecidableEq for Except

namespace Civitai

/-- Truthiness of a Python value that is either `None` or a `str`:
`None` and `""` are falsy, every other string is truthy. -/
def pyTruthy : Option String → Bool
  | none => false
  | some s => s != ""

/-- Whitespace test used by Python `str.strip` (ASCII whitespace suffices
for the tokens involved). -/
def isSpaceChar (c : Char) : Bool :=
  c = ' ' || c = '\t' || c = '\n' || c = '\r' || c = '\x0b' || c = '\x0c'

def dropLeadingSpace : List Char → List Char
  | [] => []
  | c :: cs => if isSpaceChar c then dropLeadingSpace cs else c :: cs

/-- Python `str.strip()`: drop leading and trailing whitespace. -/
def pyStrip (s : String) : String :=
  String.mk (List.reverse (dropLeadingSpace (List.reverse (dropLeadingSpace s.data))))

/-- Maximal leading run of decimal digits (the `(\d+)` capture). -/
def digitRun : List Char → List Char
  | [] => []
  | c :: cs => if c.isDigit then c :: digitRun cs else []

/-- `re.search` for a pattern of the shape `<literal>(\d+)`: find the
earliest position where the literal occurs immediately followed by at
least one digit, and return the maximal digit run after it. -/
def reSearchDigits (pat : List Char) : List Char → Option (List Char)
  | [] => none
  | c :: cs =>
      if (c :: cs).take pat.length = pat ∧ digitRun ((c :: cs).drop pat.length) ≠ [] then
        some (digitRun ((c :: cs).drop pat.length))
      else
        reSearchDigits pat cs

/-- The literal part of the regex `modelVersionId=(\d+)`. -/
def patVersion : List Char := "modelVersionId=".data

/-- The literal part of the regex `civitai\.com/models/(\d+)`. -/
def patModel : List Char := "civitai.com/models/".data

/-- Error classification of the registry helpers
(`get_latest_version_id`, `get_model_info`).  Each constructor stands for
one distinct message-returning branch of the source. -/
inductive ApiErr where
  /-- status 401 branch -/
  | auth
  /-- status 403 branch -/
  | forbidden
  /-- status 404 branch -/
  | notFound
  /-- status 429 branch -/
  | rateLimited
  /-- other non-200 status branch; carries the status code interpolated
  into the message -/
  | server (code : Nat)
  /-- `except requests.exceptions.Timeout` branch -/
  | timeoutErr
  /-- `except requests.exceptions.ConnectionError` branch -/
  | network
  /-- generic `except Exception` branch -/
  | unknown
  /-- empty or missing `modelVersions` list on a 200 response -/
  | noVersions
deriving DecidableEq, Repr

/-- Outcome of one `requests.get` call against a registry endpoint. -/
inductive HttpResp (β : Type) where
  /-- a response arrived with this status code and (parsed JSON) body -/
  | resp (status : Nat) (body : β)
  /-- `requests.exceptions.Timeout` raised -/
  | timeout
  /-- `requests.exceptions.ConnectionError` raised -/
  | connError
  /-- any other exception during the request or JSON parsing -/
  | excOther
deriving DecidableEq, Repr

/-- JSON body of the model-by-id endpoint as consumed by the code:
`data['modelVersions']` (absent → `none`), each entry read as its
`['id']` field. -/
structure ModelByIdBody where
  modelVersions : Option (List Nat)
deriving DecidableEq, Repr

/-- JSON body of the version-by-id endpoint as consumed by the code:
`data['files']` (absent → `none`) with each entry holding the optional
keys `'name'` and `'downloadUrl'`; `data.get('model',Map).get('name')`
flattened to `modelName`; `data.get('name')` as `versionName`. -/
structure FileEntry where
  name : Option String
  downloadUrl : Option String
deriving DecidableEq, Repr

structure ModelInfo where
  files : Option (List FileEntry)
  modelName : Option String
  versionName : Option String
deriving DecidableEq, Repr

/-- `CivitaiDownloader.get_latest_version_id` (civitai_downloader.py 67-100),
as a function of the HTTP outcome of its single `requests.get`. -/
def get_latest_version_id (r : HttpResp ModelByIdBody) : Except ApiErr String :=
  match r with
  | .resp st body =>
      if st = 200 then
        match body.modelVersions with
        | some (v :: _) => .ok (toString v)
        | _ => .error .noVersions
      else if st = 401 then .error .auth
      else if st = 403 then .error .forbidden
      else if st = 404 then .error .notFound
      else if st = 429 then .error .rateLimited
      else .error (.server st)
  | .timeout => .error .timeoutErr
  | .connError => .error .network
  | .excOther => .error .unknown

/-- `CivitaiDownloader.get_model_info` (civitai_downloader.py 102-132). -/
def get_model_info (r : HttpResp ModelInfo) : Except ApiErr ModelInfo :=
  match r with
  | .resp st body =>
      if st = 200 then .ok body
      else if st = 401 then .error .auth
      else if st = 403 then .error .forbidden
      else if st = 404 then .error .notFound
      else if st = 429 then .error .rateLimited
      else .error (.server st)
  | .timeout => .error .timeoutErr
  | .connError => .error .network
  | .excOther => .error .unknown

/-- Failure classification of the whole workflow.  Again each constructor
corresponds to one distinct message-returning branch of the source. -/
inductive WErr where
  /-- extract_model_id: empty or non-string url -/
  | invalidRef
  /-- extract_model_id: neither regex matched -/
  | invalidRefNoId
  /-- extract_model_id: error propagated from get_latest_version_id -/
  | resolve (e : ApiErr)
  /-- interactive only: `if not url` check at the top of download_model -/
  | emptyUrl
  /-- error propagated from get_model_info -/
  | meta (e : ApiErr)
  /-- `'files' not in model_info or len(model_info['files']) == 0` -/
  | noFiles
  /-- download status 401 -/
  | dlAuth
  /-- download status 403 -/
  | dlForbidden
  /-- download status 404 -/
  | dlNotFound
  /-- download status 429 -/
  | dlRateLimited
  /-- interactive: HTTPError from raise_for_status; programmatic: the
  `status_code != 200` branch -/
  | dlHttp (code : Nat)
  /-- Timeout raised during request or streaming -/
  | dlTimeout
  /-- ConnectionError raised during request or streaming -/
  | dlConnLost
  /-- interactive only: `except OSError` during the file write -/
  | dlOSError
  /-- generic `except Exception` around the download -/
  | dlUnknown
  /-- downloaded file exists with size zero -/
  | emptyFile
deriving DecidableEq, Repr

/-- Network calls recorded by the reference-resolution step. -/
inductive NetCall where
  | modelById (id : String)
deriving DecidableEq, Repr

/-- `CivitaiDownloader.extract_model_id` (civitai_downloader.py 46-65),
parameterised by the outcome the model-by-id endpoint would give, and
instrumented with the list of network calls actually issued. -/
def extract_model_id (lookup : HttpResp ModelByIdBody) (url : Option String) :
    Except WErr String × List NetCall :=
  match url with
  | none => (.error .invalidRef, [])
  | some u =>
      if u = "" then (.error .invalidRef, [])
      else
        match reSearchDigits patVersion u.data with
        | some ds => (.ok (String.mk ds), [])
        | none =>
            match reSearchDigits patModel u.data with
            | some ds =>
                (match get_latest_version_id lookup with
                 | .ok v => .ok v
                 | .error e => .error (.resolve e),
                 [NetCall.modelById (String.mk ds)])
            | none => (.error .invalidRefNoId, [])

/-- `CivitaiDownloader.load_default_api_key` (civitai_downloader.py 26-36):
the argument is the content of `default_api_key.txt` (`none` = file absent
or unreadable, both of which the source folds into returning `None`). -/
def load_default_api_key (file : Option String) : Option String :=
  match file with
  | none => none
  | some content =>
      if pyStrip content ≠ "" then some (pyStrip content) else none

/-- Lines 136 of the interactive workflow (identical to civitai_api.py
line 59): `self.api_key = api_key.strip() if api_key else None`. -/
def stripUserKey : Option String → Option String
  | none => none
  | some s => if s = "" then none else some (pyStrip s)

/-- Lines 136-142 of the interactive workflow (identical to
civitai_api.py 59-65): the value of `self.api_key` after the
user-key / default-key resolution.  Note the stored config record is not
consulted here. -/
def resolveCredential (user defFile : Option String) : Option String :=
  let k := stripUserKey user
  if pyTruthy k then k
  else
    match load_default_api_key defFile with
    | some d => some d
    | none => k

/-- The credential actually attached to outbound requests: headers and the
download-URL token are added only under `if self.api_key:`, i.e. when the
resolved value is truthy. -/
def attachedCred (user defFile : Option String) : Option String :=
  let k := resolveCredential user defFile
  if pyTruthy k then k else none

/-- Lines 144-153 of the interactive workflow: the content of the config
record afterwards.  `save_api_key` and the `os.remove` are each wrapped in
try/except that swallows I/O errors (the record then keeps its old value);
`ioOk` says whether those file operations succeed. -/
def configAfterStep (cred : Option String) (cfg : Option String) (ioOk : Bool) :
    Option String :=
  if pyTruthy cred then (if ioOk then cred else cfg)
  else if ioOk then none else cfg

/-- Exception raised while streaming the response body to the file
(inside the chunk loop, after a response object exists). -/
inductive StreamExc where
  /-- requests Timeout mid-stream -/
  | timeoutExc
  /-- requests ConnectionError mid-stream -/
  | connExc
  /-- OSError from the local file write -/
  | osExc
  /-- any other exception -/
  | otherExc
deriving DecidableEq, Repr

/-- Outcome of the streamed download `requests.get(download_url,
stream=True, timeout=120)` together with the body stream: `chunks` are the
sizes of chunks yielded by `iter_content` before either normal completion
or the interrupting exception `intr`. -/
inductive DlResp where
  | timeout
  | connError
  /-- other exception raised by the `requests.get` call itself -/
  | excOther
  | resp (status : Nat) (chunks : List Nat) (intr : Option StreamExc)
deriving DecidableEq, Repr

/-- Interactive result: one constructor per return site of
`CivitaiDownloader.download_model`. `fault` is an exception escaping the
function (the `os.makedirs` call at line 187 and the
`file_info['downloadUrl']` / `['name']` accesses at 175-176 sit outside
the try block that starts at line 191). -/
inductive Result where
  | success (modelName versionName fname : String)
  | failure (e : WErr)
  | fault
deriving DecidableEq, Repr

def Result.isSuccess : Result → Bool
  | .success _ _ _ => true
  | _ => false

/-- Environment of one interactive invocation: the arguments, the files
read and written, and the outcomes of the external calls. -/
structure Env where
  /-- `api_key` argument (textbox value) -/
  userKey : Option String
  /-- `url` argument -/
  url : Option String
  /-- stored `api_key` value in `civitai_api_key.json`, `none` = absent -/
  configFile : Option String
  /-- content of `default_api_key.txt`, `none` = absent -/
  defaultFile : Option String
  /-- whether writing/removing the config file succeeds -/
  configIOOk : Bool
  /-- outcome of the model-by-id request, if issued -/
  modelLookup : HttpResp ModelByIdBody
  /-- outcome of the version-by-id request, if issued -/
  versionLookup : HttpResp ModelInfo
  /-- whether `os.makedirs` succeeds -/
  mkdirOk : Bool
  /-- outcome of the streamed download request, if issued -/
  dl : DlResp
  /-- size of a file already present at `lora_path`, `none` = absent -/
  preFile : Option Nat
deriving DecidableEq, Repr

/-- Classification of a mid-stream exception by the interactive handlers
(order: Timeout, ConnectionError, HTTPError, OSError, Exception). -/
def classifyStream : StreamExc → WErr
  | .timeoutExc => .dlTimeout
  | .connExc => .dlConnLost
  | .osExc => .dlOSError
  | .otherExc => .dlUnknown

/-- Control flow and file effect of `CivitaiDownloader.download_model`
(civitai_downloader.py 134-246), excluding the credential/config step
which happens unconditionally first (see `download_model` below).
Returns (result, file at lora_path afterwards). -/
def download_core (env : Env) : Result × Option Nat :=
  -- line 155: `if not url`
  if pyTruthy env.url = false then (.failure .emptyUrl, env.preFile)
  else
    match (extract_model_id env.modelLookup env.url).1 with
    | .error e => (.failure e, env.preFile)
    | .ok _vid =>
        match get_model_info env.versionLookup with
        | .error e => (.failure (.meta e), env.preFile)
        | .ok info =>
            match info.files with
            | none => (.failure .noFiles, env.preFile)
            | some [] => (.failure .noFiles, env.preFile)
            | some (fi :: _) =>
                match fi.downloadUrl, fi.name with
                -- KeyError at line 175/176, outside the try: escapes
                | none, _ => (.fault, env.preFile)
                | some _, none => (.fault, env.preFile)
                | some _, some fname =>
                    -- os.makedirs at line 187, outside the try: escapes
                    if env.mkdirOk = false then (.fault, env.preFile)
                    else
                      match env.dl with
                      -- handlers at 227-246 remove the file if it exists
                      | .timeout => (.failure .dlTimeout, none)
                      | .connError => (.failure .dlConnLost, none)
                      | .excOther => (.failure .dlUnknown, none)
                      | .resp st chunks intr =>
                          -- lines 194-201: early returns, no file touched
                          if st = 401 then (.failure .dlAuth, env.preFile)
                          else if st = 403 then (.failure .dlForbidden, env.preFile)
                          else if st = 404 then (.failure .dlNotFound, env.preFile)
                          else if st = 429 then (.failure .dlRateLimited, env.preFile)
                          -- line 203: raise_for_status raises for 4xx/5xx,
                          -- handled at 235-238 (file removed if it exists)
                          else if 400 ≤ st ∧ st ≤ 599 then
                            (.failure (.dlHttp st), none)
                          else
                            -- lines 208-215: open('wb') truncates/creates,
                            -- then chunks are written
                            match intr with
                            | some e => (.failure (classifyStream e), none)
                            | none =>
                                if chunks.sum = 0 then
                                  -- lines 218-220
                                  (.failure .emptyFile, none)
                                else
                                  (.success (info.modelName.getD "Unknown")
                                    (info.versionName.getD "") fname,
                                   some chunks.sum)

/-- Full observable state of one interactive invocation. -/
structure RunOut where
  result : Result
  /-- config record afterwards -/
  config : Option String
  /-- file at lora_path afterwards (size) -/
  file : Option Nat
  /-- credential attached to the registry and download requests -/
  cred : Option String
deriving DecidableEq, Repr

/-- `CivitaiDownloader.download_model` (civitai_downloader.py 134-246):
the credential resolution (136-142) and the config save/delete (144-153)
happen unconditionally before any validation; the rest is
`download_core`. -/
def download_model (env : Env) : RunOut :=
  let raw := resolveCredential env.userKey env.defaultFile
  { result := (download_core env).1
    config := configAfterStep raw env.configFile env.configIOOk
    file := (download_core env).2
    cred := if pyTruthy raw then raw else none }

/-- Programmatic result: one constructor per return site of the
`/civitai/download` handler in civitai_api.py. `err` is a structured
`DownloadResponse` with `success=False`, delivered as HTTP 200; `fault` is
an exception escaping the handler (HTTP 500 from the web framework). -/
inductive ApiResult where
  | ok (modelName versionName fname : String)
  | err (e : WErr)
  | fault
deriving DecidableEq, Repr

def ApiResult.isOk : ApiResult → Bool
  | .ok _ _ _ => true
  | _ => false

/-- Environment of one programmatic invocation.  `request.url` is a
required string field of the pydantic model, so it is `String` here (no
config-file fields: the handler never reads or writes the stored
record). -/
structure ApiEnv where
  /-- `request.api_key` (optional field, default None) -/
  userKey : Option String
  /-- `request.url` -/
  url : String
  /-- content of `default_api_key.txt`, `none` = absent -/
  defaultFile : Option String
  modelLookup : HttpResp ModelByIdBody
  versionLookup : HttpResp ModelInfo
  mkdirOk : Bool
  dl : DlResp
  preFile : Option Nat
deriving DecidableEq, Repr

/-- Classification of a mid-stream exception by the programmatic handlers
(order: Timeout, ConnectionError, Exception — there is no dedicated
OSError handler, so a local write error lands in `except Exception`). -/
def classifyStreamApi : StreamExc → WErr
  | .timeoutExc => .dlTimeout
  | .connExc => .dlConnLost
  | .osExc => .dlUnknown
  | .otherExc => .dlUnknown

/-- Control flow and file effect of the `/civitai/download` handler
(civitai_api.py 40-200).  `import requests` is a statement inside the
function body (line 113), which makes `requests` a local name throughout
the function; an exception raised before that statement executes (the
`file_info['downloadUrl']` / `['name']` KeyError at 94-95, or an OSError
from `os.makedirs` at 110) reaches the `except requests.exceptions...`
clauses at 177-200, whose evaluation of the unbound local `requests`
raises UnboundLocalError — the fault escapes the handler. -/
def api_core (env : ApiEnv) : ApiResult × Option Nat :=
  match (extract_model_id env.modelLookup (some env.url)).1 with
  | .error e => (.err e, env.preFile)
  | .ok _vid =>
      match get_model_info env.versionLookup with
      | .error e => (.err (.meta e), env.preFile)
      | .ok info =>
          match info.files with
          | none => (.err .noFiles, env.preFile)
          | some [] => (.err .noFiles, env.preFile)
          | some (fi :: _) =>
              match fi.downloadUrl, fi.name with
              -- KeyError before `import requests`: unhandled fault
              | none, _ => (.fault, env.preFile)
              | some _, none => (.fault, env.preFile)
              | some _, some fname =>
                  -- OSError from makedirs before `import requests`:
                  -- unhandled fault
                  if env.mkdirOk = false then (.fault, env.preFile)
                  else
                    match env.dl with
                    -- handlers at 177-200 remove the file if it exists
                    | .timeout => (.err .dlTimeout, none)
                    | .connError => (.err .dlConnLost, none)
                    | .excOther => (.err .dlUnknown, none)
                    | .resp st chunks intr =>
                        -- lines 116-145: early returns, no file touched
                        if st = 401 then (.err .dlAuth, env.preFile)
                        else if st = 403 then (.err .dlForbidden, env.preFile)
                        else if st = 404 then (.err .dlNotFound, env.preFile)
                        else if st = 429 then (.err .dlRateLimited, env.preFile)
                        -- lines 140-145: any other non-200 rejected
                        -- before the body is consumed
                        else if st ≠ 200 then (.err (.dlHttp st), env.preFile)
                        else
                          match intr with
                          | some e => (.err (classifyStreamApi e), none)
                          | none =>
                              if chunks.sum = 0 then (.err .emptyFile, none)
                              else
                                (.ok (info.modelName.getD "Unknown")
                                  (info.versionName.getD "") fname,
                                 some chunks.sum)

/-- Full observable state of one programmatic invocation (the handler
never touches the config record, so there is no config field). -/
structure ApiOut where
  result : ApiResult
  file : Option Nat
  cred : Option String
deriving DecidableEq, Repr

/-- The `/civitai/download` handler (civitai_api.py 40-200): credential
resolution at 59-65 is the same code as the interactive lines 136-142,
but nothing is persisted. -/
def api_download (env : ApiEnv) : ApiOut :=
  let raw := resolveCredential env.userKey env.defaultFile
  { result := (api_core env).1
    file := (api_core env).2
    cred := if pyTruthy raw then raw else none }

/-! Support definitions for the claim theorems. -/

/-- The status-to-classification table of spec §4.1, for comparison with
the registry helpers. -/
def statusClass (st : Nat) : ApiErr :=
  if st = 401 then .auth
  else if st = 403 then .forbidden
  else if st = 404 then .notFound
  else if st = 429 then .rateLimited
  else .server st

/-- The download-engine classification of the four statuses inspected
before the body is consumed. -/
def dlStatusErr (st : Nat) : WErr :=
  if st = 401 then .dlAuth
  else if st = 403 then .dlForbidden
  else if st = 404 then .dlNotFound
  else .dlRateLimited

/-- Modelled from the spec, as amended by claim C2's counterexample: the
credential attached to requests is the trimmed user token when non-empty,
else the default-file token, else none — the stored config record is not
consulted. -/
def credSpec (user defFile : Option String) : Option String :=
  match user with
  | none => load_default_api_key defFile
  | some s =>
      if pyStrip s ≠ "" then some (pyStrip s)
      else load_default_api_key defFile

/-- Interactive environment on which claim C2's counterexample is run: no
user token, stored record `STORED`, default-key file `DEFAULT`. -/
def envC2 : Env :=
  { userKey := none, url := some "x?modelVersionId=7", configFile := some "STORED",
    defaultFile := some "DEFAULT", configIOOk := true, modelLookup := .timeout,
    versionLookup := .timeout, mkdirOk := true, dl := .timeout, preFile := none }

/-- Interactive environment on which claim C3's counterexample is run:
the user explicitly submits an empty token while a stored record and a
default-key file both exist. -/
def envC3 : Env :=
  { userKey := some "", url := none, configFile := some "OLD",
    defaultFile := some "DEFAULT", configIOOk := true, modelLookup := .timeout,
    versionLookup := .timeout, mkdirOk := true, dl := .timeout, preFile := none }

/-- Interactive environment for claim C10: an unrecognisable URL together
with a stored record, no user token and a default-key file. -/
def envC10 : Env :=
  { userKey := none, url := some "garbage", configFile := some "OLD",
    defaultFile := some "DEFAULT", configIOOk := true, modelLookup := .timeout,
    versionLookup := .timeout, mkdirOk := true, dl := .timeout, preFile := none }

/-- Interactive environment for claim C1's witness: a fully successful
download of 500 bytes. -/
def envC1 : Env :=
  { userKey := some "k", url := some "x?modelVersionId=9", configFile := none,
    defaultFile := none, configIOOk := true, modelLookup := .timeout,
    versionLookup := .resp 200 ⟨some [⟨some "lora.safetensors", some "https://dl"⟩],
      some "MyModel", some "v1"⟩,
    mkdirOk := true, dl := .resp 200 [400, 100] none, preFile := none }

/-- Programmatic environment for claim C1's witness: the connection drops
after 400 of 1000 bytes. -/
def aenvC1 : ApiEnv :=
  { userKey := none, url := "x?modelVersionId=9", defaultFile := none,
    modelLookup := .timeout,
    versionLookup := .resp 200 ⟨some [⟨some "lora.safetensors", some "https://dl"⟩],
      some "MyModel", some "v1"⟩,
    mkdirOk := true, dl := .resp 200 [400] (some .connExc), preFile := none }

/-- Metadata used by the claim C7 and C8 environments. -/
def infoC7 : ModelInfo :=
  ⟨some [⟨some "lora.safetensors", some "https://dl"⟩], some "M", some "V"⟩

/-- Programmatic environment on which claim C7's counterexample is run: a
preexisting 77-byte file at the destination, and the download request
answers status 500 with a 400-byte body chunk available. -/
def aenvC7 : ApiEnv :=
  { userKey := none, url := "x?modelVersionId=9", defaultFile := none,
    modelLookup := .timeout, versionLookup := .resp 200 infoC7,
    mkdirOk := true, dl := .resp 500 [400] none, preFile := some 77 }

/-- Interactive counterpart of `aenvC7` for the claim C7 witness. -/
def envC7i : Env :=
  { userKey := none, url := some "x?modelVersionId=9", configFile := none,
    defaultFile := none, configIOOk := true, modelLookup := .timeout,
    versionLookup := .resp 200 infoC7,
    mkdirOk := true, dl := .resp 500 [400] none, preFile := some 77 }

/-- Programmatic environment for the claim C8 witness: the stream
completes after two keep-alive chunks of size 0, leaving an empty
file. -/
def aenvC8 : ApiEnv :=
  { userKey := none, url := "x?modelVersionId=9", defaultFile := none,
    modelLookup := .timeout, versionLookup := .resp 200 infoC7,
    mkdirOk := true, dl := .resp 200 [0, 0] none, preFile := none }

/-- Interactive counterpart of `aenvC8` for the claim C8 witness. -/
def envC8i : Env :=
  { userKey := none, url := some "x?modelVersionId=9", configFile := none,
    defaultFile := none, configIOOk := true, modelLookup := .timeout,
    versionLookup := .resp 200 infoC7,
    mkdirOk := true, dl := .resp 200 [0, 0] none, preFile := none }

/-- Programmatic environment for claim C9: the version-by-id endpoint
answers 200 with a first file entry that has a `name` but no
`downloadUrl` key. -/
def aenvC9 : ApiEnv :=
  { userKey := none, url := "https://civitai.com/models/1?modelVersionId=789",
    defaultFile := none, modelLookup := .timeout,
    versionLookup := .resp 200 ⟨some [⟨some "lora.safetensors", none⟩],
      some "M", some "V"⟩,
    mkdirOk := true, dl := .timeout, preFile := none }

/-! Theorems. -/

/-- A value produced by `load_default_api_key` is never the empty
string. -/
theorem pyStrip_empty : pyStrip "" = "" := rfl

theorem load_default_ne_empty (f : Option String) (d : String)
    (h : load_default_api_key f = some d) : d ≠ "" := by
  cases f with
  | none => simp [load_default_api_key] at h
  | some c =>
      simp only [load_default_api_key] at h
      split_ifs at h with hc
      · injection h with h2
        subst h2
        exact hc

/-- The credential attached to outbound requests equals the spec-side
resolution function (which ignores the stored record). -/
theorem attached_eq_credSpec (u d : Option String) :
    attachedCred u d = credSpec u d := by
  cases u with
  | none =>
      cases hd : load_default_api_key d with
      | none =>
          simp [attachedCred, resolveCredential, stripUserKey, credSpec, hd, pyTruthy]
      | some k =>
          have hk := load_default_ne_empty d k hd
          simp [attachedCred, resolveCredential, stripUserKey, credSpec, hd, pyTruthy, hk]
  | some s =>
      by_cases hs : s = ""
      · subst hs
        cases hd : load_default_api_key d with
        | none =>
            simp [attachedCred, resolveCredential, stripUserKey, credSpec, hd, pyTruthy,
              pyStrip_empty]
        | some k =>
            have hk := load_default_ne_empty d k hd
            simp [attachedCred, resolveCredential, stripUserKey, credSpec, hd, pyTruthy, hk,
              pyStrip_empty]
      · by_cases hps : pyStrip s = ""
        · cases hd : load_default_api_key d with
          | none =>
              simp [attachedCred, resolveCredential, stripUserKey, credSpec, hd, pyTruthy,
                hs, hps]
          | some k =>
              have hk := load_default_ne_empty d k hd
              simp [attachedCred, resolveCredential, stripUserKey, credSpec, hd, pyTruthy,
                hs, hps, hk]
        · simp [attachedCred, resolveCredential, stripUserKey, credSpec, pyTruthy, hs, hps]

/-- Claim C4: for every non-200 response from either registry endpoint
(model-by-id in `get_latest_version_id`, version-by-id in
`get_model_info`), the error classification follows the table
401→AuthError, 403→ForbiddenError, 404→NotFoundError, 429→RateLimited,
other→ServerError carrying the status code; a timeout yields TimeoutError
and a connection failure yields NetworkError. -/
theorem c4_registry_status_mapping (st : Nat) (b1 : ModelByIdBody) (b2 : ModelInfo)
    (h : st ≠ 200) :
    get_latest_version_id (.resp st b1) = .error (statusClass st) ∧
    get_model_info (.resp st b2) = .error (statusClass st) ∧
    get_latest_version_id (HttpResp.timeout) = .error .timeoutErr ∧
    get_model_info (HttpResp.timeout) = .error .timeoutErr ∧
    get_latest_version_id (HttpResp.connError) = .error .network ∧
    get_model_info (HttpResp.connError) = .error .network := by
  refine ⟨?_, ?_, rfl, rfl, rfl, rfl⟩ <;>
    simp only [get_latest_version_id, get_model_info, statusClass, if_neg h] <;>
    split_ifs <;> rfl

/-- Witness for C4 at status 418. -/
theorem c4_registry_status_mapping_witness :
    ((418 : Nat) ≠ 200) ∧
    (get_latest_version_id (.resp 418 ⟨none⟩) = .error (statusClass 418) ∧
     get_model_info (.resp 418 ⟨none, none, none⟩) = .error (statusClass 418) ∧
     get_latest_version_id (HttpResp.timeout) = .error .timeoutErr ∧
     get_model_info (HttpResp.timeout) = .error .timeoutErr ∧
     get_latest_version_id (HttpResp.connError) = .error .network ∧
     get_model_info (HttpResp.connError) = .error .network) :=
  ⟨by decide, c4_registry_status_mapping 418 ⟨none⟩ ⟨none, none, none⟩ (by decide)⟩

/-- Claim C5: for every URL without a `modelVersionId` parameter that
matches the model-page pattern with a numeric id, resolution issues
exactly one model-by-id lookup call; on a 200 response it returns the id
of the first entry of the version list, and an empty (or missing) version
list fails with NoVersionsError. -/
theorem c5_latest_version_resolution (lookup : HttpResp ModelByIdBody) (u : String)
    (ds : List Char) (h0 : u ≠ "")
    (h1 : reSearchDigits patVersion u.data = none)
    (h2 : reSearchDigits patModel u.data = some ds) :
    (extract_model_id lookup (some u)).2 = [NetCall.modelById (String.mk ds)] ∧
    (∀ v vs, lookup = .resp 200 ⟨some (v :: vs)⟩ →
      (extract_model_id lookup (some u)).1 = .ok (toString v)) ∧
    (∀ body, lookup = .resp 200 body →
      (body.modelVersions = none ∨ body.modelVersions = some []) →
      (extract_model_id lookup (some u)).1 = .error (.resolve .noVersions)) := by
  refine ⟨?_, ?_, ?_⟩
  · simp [extract_model_id, h0, h1, h2]
  · intro v vs hl
    subst hl
    simp [extract_model_id, h0, h1, h2, get_latest_version_id]
  · intro body hl hv
    subst hl
    rcases hv with hv | hv <;>
      simp [extract_model_id, h0, h1, h2, get_latest_version_id, hv]

/-- Witness for C5 on the URL `civitai.com/models/12`. -/
theorem c5_latest_version_resolution_witness :
    ("civitai.com/models/12" ≠ "" ∧
     reSearchDigits patVersion "civitai.com/models/12".data = none ∧
     reSearchDigits patModel "civitai.com/models/12".data = some "12".data) ∧
    ((extract_model_id (.resp 200 ⟨some [7, 3]⟩) (some "civitai.com/models/12")).2 =
       [NetCall.modelById (String.mk "12".data)] ∧
     (∀ v vs, (HttpResp.resp 200 ⟨some [7, 3]⟩ : HttpResp ModelByIdBody) =
         .resp 200 ⟨some (v :: vs)⟩ →
       (extract_model_id (.resp 200 ⟨some [7, 3]⟩) (some "civitai.com/models/12")).1 =
         .ok (toString v)) ∧
     (∀ body, (HttpResp.resp 200 ⟨some [7, 3]⟩ : HttpResp ModelByIdBody) = .resp 200 body →
       (body.modelVersions = none ∨ body.modelVersions = some []) →
       (extract_model_id (.resp 200 ⟨some [7, 3]⟩) (some "civitai.com/models/12")).1 =
         .error (.resolve .noVersions))) :=
  ⟨⟨by decide, by decide, by decide⟩,
   c5_latest_version_resolution (.resp 200 ⟨some [7, 3]⟩) "civitai.com/models/12"
     "12".data (by decide) (by decide) (by decide)⟩

/-- Claim C6: for every URL containing `modelVersionId=<digits>`,
resolution returns exactly those digits without any network call; empty
or null input fails with InvalidReference, also without any network
call. -/
theorem c6_direct_version_id (lookup : HttpResp ModelByIdBody) (u : String)
    (ds : List Char) (h0 : u ≠ "") (h1 : reSearchDigits patVersion u.data = some ds) :
    extract_model_id lookup (some u) = (.ok (String.mk ds), []) ∧
    extract_model_id lookup none = (.error .invalidRef, []) ∧
    extract_model_id lookup (some "") = (.error .invalidRef, []) := by
  refine ⟨?_, rfl, by simp [extract_model_id]⟩
  simp only [extract_model_id, if_neg h0, h1]

/-- Witness for C6 on the URL `https://civitai.com/models/5?modelVersionId=789`. -/
theorem c6_direct_version_id_witness :
    ("https://civitai.com/models/5?modelVersionId=789" ≠ "" ∧
     reSearchDigits patVersion "https://civitai.com/models/5?modelVersionId=789".data =
       some "789".data) ∧
    (extract_model_id (HttpResp.timeout) (some "https://civitai.com/models/5?modelVersionId=789") =
       (.ok (String.mk "789".data), []) ∧
     extract_model_id (HttpResp.timeout : HttpResp ModelByIdBody) none =
       (.error .invalidRef, []) ∧
     extract_model_id (HttpResp.timeout : HttpResp ModelByIdBody) (some "") =
       (.error .invalidRef, [])) :=
  ⟨⟨by decide, by decide⟩,
   c6_direct_version_id HttpResp.timeout "https://civitai.com/models/5?modelVersionId=789"
     "789".data (by decide) (by decide)⟩

/-- Claim C2 counterexample: with no user-supplied token, a stored
config-record token `STORED` and a default-key file `DEFAULT`, the
credential attached to the requests is `DEFAULT`, not the stored
`STORED` — the workflow never consults the stored record (in the source,
`load_api_key` is called only to prefill the interactive textbox), so the
claimed order "user → stored → default" is wrong. -/
theorem c2_stored_token_ignored :
    envC2.userKey = none ∧
    envC2.configFile = some "STORED" ∧
    envC2.defaultFile = some "DEFAULT" ∧
    (download_model envC2).cred = some "DEFAULT" ∧
    (download_model envC2).cred ≠ some "STORED" := by decide

/-- Claim C2 as amended: for every workflow invocation (interactive or
programmatic), the credential attached to the registry and download
requests is the explicit user-supplied token (trimmed) if non-empty,
otherwise the default token from the pre-provisioned default-token file,
otherwise no credential; the token stored in the local config record is
not consulted. -/
theorem c2_credential_resolution_order :
    (∀ env : Env, (download_model env).cred = credSpec env.userKey env.defaultFile) ∧
    (∀ env : ApiEnv, (api_download env).cred = credSpec env.userKey env.defaultFile) :=
  ⟨fun env => attached_eq_credSpec env.userKey env.defaultFile,
   fun env => attached_eq_credSpec env.userKey env.defaultFile⟩

/-- Claim C3 counterexample: the user explicitly submits an empty token
while a default-key file `DEFAULT` exists and the stored record holds
`OLD`; the claim says the stored record is deleted, but the code resolves
the credential to the default token before the save/delete step, so the
record is overwritten with `DEFAULT` instead of being deleted. -/
theorem c3_empty_token_persists_default :
    envC3.userKey = some "" ∧
    envC3.configFile = some "OLD" ∧
    envC3.defaultFile = some "DEFAULT" ∧
    (download_model envC3).config = some "DEFAULT" := by decide

/-- Claim C3 as amended: in the interactive entry point, if the user
supplies a token that is non-empty after trimming, exactly that trimmed
token is immediately persisted, overwriting any prior value; if the user
submits an empty (or whitespace-only) token, the record is overwritten
with the default-file token when one exists and deleted otherwise, a
missing record not being an error.  (Hypothesis: the config-file write
itself succeeds; the source swallows config I/O errors and keeps the old
record.) -/
theorem c3_token_persistence (env : Env) (hio : env.configIOOk = true) :
    (∀ s, env.userKey = some s → pyStrip s ≠ "" →
        (download_model env).config = some (pyStrip s)) ∧
    (pyTruthy (stripUserKey env.userKey) = false →
        (download_model env).config = load_default_api_key env.defaultFile) := by
  constructor
  · intro s hs hstrip
    have hs0 : s ≠ "" := by
      rintro rfl
      exact hstrip pyStrip_empty
    simp [download_model, configAfterStep, resolveCredential, stripUserKey, hs, hs0,
      pyTruthy, hstrip, hio]
  · intro hk
    cases hd : load_default_api_key env.defaultFile with
    | none =>
        simp [download_model, configAfterStep, resolveCredential, hk, hd, hio]
    | some k =>
        have hne := load_default_ne_empty env.defaultFile k hd
        have htr : pyTruthy (some k) = true := by simp [pyTruthy, hne]
        simp [download_model, configAfterStep, resolveCredential, hk, hd, htr, hio]

/-- Witness for the amended C3 at an environment whose user token is
`k`. -/
theorem c3_token_persistence_witness :
    (envC1.configIOOk = true) ∧
    ((∀ s, envC1.userKey = some s → pyStrip s ≠ "" →
        (download_model envC1).config = some (pyStrip s)) ∧
     (pyTruthy (stripUserKey envC1.userKey) = false →
        (download_model envC1).config = load_default_api_key envC1.defaultFile)) :=
  ⟨rfl, c3_token_persistence envC1 rfl⟩

/-- Claim C10: in the interactive entry point the credential-persistence
side effect happens before the URL is validated.  First part: for every
invocation (any URL, valid or not), if a non-empty credential resolves
the record is overwritten with it, and otherwise the record is deleted.
Second part: a concrete invocation with an unrecognisable URL fails with
InvalidReference yet overwrites the stored record `OLD` with the default
token `DEFAULT`. -/
theorem c10_persistence_before_validation (env : Env) (hio : env.configIOOk = true) :
    ((pyTruthy (resolveCredential env.userKey env.defaultFile) = true →
        (download_model env).config = resolveCredential env.userKey env.defaultFile) ∧
     (pyTruthy (resolveCredential env.userKey env.defaultFile) = false →
        (download_model env).config = none)) ∧
    ((download_model envC10).result = .failure .invalidRefNoId ∧
     envC10.configFile = some "OLD" ∧
     (download_model envC10).config = some "DEFAULT") := by
  refine ⟨⟨?_, ?_⟩, by decide, by decide, by decide⟩ <;>
    intro h <;> simp [download_model, configAfterStep, h, hio]

/-- Witness for C10 at the counterexample environment itself. -/
theorem c10_persistence_before_validation_witness :
    (envC10.configIOOk = true) ∧
    (((pyTruthy (resolveCredential envC10.userKey envC10.defaultFile) = true →
        (download_model envC10).config = resolveCredential envC10.userKey envC10.defaultFile) ∧
      (pyTruthy (resolveCredential envC10.userKey envC10.defaultFile) = false →
        (download_model envC10).config = none)) ∧
     ((download_model envC10).result = .failure .invalidRefNoId ∧
      envC10.configFile = some "OLD" ∧
      (download_model envC10).config = some "DEFAULT")) :=
  ⟨rfl, c10_persistence_before_validation envC10 rfl⟩

/-- Atomicity of the interactive workflow, on its core: starting with no
file at the destination path, success leaves a file of positive size and
every other outcome leaves no file. -/
theorem download_core_atomic (env : Env) (h : env.preFile = none) :
    ((download_core env).1.isSuccess = true →
      ∃ n, (download_core env).2 = some n ∧ 0 < n) ∧
    ((download_core env).1.isSuccess = false → (download_core env).2 = none) := by
  unfold download_core
  repeat' split
  all_goals simp_all [Result.isSuccess]
  all_goals omega

/-- Atomicity of the programmatic workflow, on its core. -/
theorem api_core_atomic (env : ApiEnv) (h : env.preFile = none) :
    ((api_core env).1.isOk = true →
      ∃ n, (api_core env).2 = some n ∧ 0 < n) ∧
    ((api_core env).1.isOk = false → (api_core env).2 = none) := by
  unfold api_core
  repeat' split
  all_goals simp_all [ApiResult.isOk]
  all_goals omega

/-- Claim C1: for every download invocation (interactive or programmatic)
with no file initially present at the destination path, the outcome is
atomic: success leaves a fully-written file of non-zero size at the path,
and every failure (including an unhandled fault) leaves no file — each
failure path deletes whatever was written. -/
theorem c1_download_atomicity (env : Env) (aenv : ApiEnv)
    (h1 : env.preFile = none) (h2 : aenv.preFile = none) :
    (((download_model env).result.isSuccess = true →
        ∃ n, (download_model env).file = some n ∧ 0 < n) ∧
     ((download_model env).result.isSuccess = false →
        (download_model env).file = none)) ∧
    (((api_download aenv).result.isOk = true →
        ∃ n, (api_download aenv).file = some n ∧ 0 < n) ∧
     ((api_download aenv).result.isOk = false →
        (api_download aenv).file = none)) :=
  ⟨download_core_atomic env h1, api_core_atomic aenv h2⟩

/-- Witness for C1: an interactive invocation that succeeds with 500
bytes, and a programmatic invocation whose connection drops
mid-stream. -/
theorem c1_download_atomicity_witness :
    (envC1.preFile = none ∧ aenvC1.preFile = none) ∧
    ((((download_model envC1).result.isSuccess = true →
        ∃ n, (download_model envC1).file = some n ∧ 0 < n) ∧
      ((download_model envC1).result.isSuccess = false →
        (download_model envC1).file = none)) ∧
     (((api_download aenvC1).result.isOk = true →
        ∃ n, (api_download aenvC1).file = some n ∧ 0 < n) ∧
      ((api_download aenvC1).result.isOk = false →
        (api_download aenvC1).file = none))) :=
  ⟨⟨rfl, rfl⟩, c1_download_atomicity envC1 aenvC1 rfl rfl⟩

/-- Claim C7 counterexample: the download request answers status 500 with
a 400-byte body chunk available, and a preexisting 77-byte file sits at
the destination.  The programmatic engine surfaces ServerError with the
destination file untouched at 77 bytes: the status is rejected before the
body is consumed, so the body is NOT "consumed and written before the
remaining non-2xx statuses are detected" as the claim states (had the
write loop run, the file would have been truncated and filled with the
400 streamed bytes). -/
theorem c7_server_error_before_stream :
    aenvC7.dl = .resp 500 [400] none ∧
    aenvC7.preFile = some 77 ∧
    (api_download aenvC7).result = .err (.dlHttp 500) ∧
    (api_download aenvC7).file = some 77 := by decide

/-- Claim C7 as amended: in the download engine, statuses 401, 403, 404
and 429 are inspected before consuming the response body and abort
leaving the destination file untouched; and any other status is likewise
rejected before the body is consumed and before anything is written — the
programmatic path returns ServerError for any status other than 200
(file untouched), and the interactive path raises an HTTP error for any
other 4xx/5xx status (deleting the destination file if one exists).  The
hypotheses state that both invocations reach the download request. -/
theorem c7_status_inspection (env : ApiEnv) (ienv : Env) (vid : String)
    (info : ModelInfo) (fi : FileEntry) (rest : List FileEntry) (du fn : String)
    (st : Nat) (chunks : List Nat) (intr : Option StreamExc)
    (ha1 : (extract_model_id env.modelLookup (some env.url)).1 = .ok vid)
    (ha2 : env.versionLookup = .resp 200 info)
    (ha3 : info.files = some (fi :: rest))
    (ha4 : fi.downloadUrl = some du)
    (ha5 : fi.name = some fn)
    (ha6 : env.mkdirOk = true)
    (ha7 : env.dl = .resp st chunks intr)
    (hb0 : pyTruthy ienv.url = true)
    (hb1 : (extract_model_id ienv.modelLookup ienv.url).1 = .ok vid)
    (hb2 : ienv.versionLookup = .resp 200 info)
    (hb6 : ienv.mkdirOk = true)
    (hb7 : ienv.dl = .resp st chunks intr) :
    (st = 401 ∨ st = 403 ∨ st = 404 ∨ st = 429 →
      (api_download env).result = .err (dlStatusErr st) ∧
      (api_download env).file = env.preFile ∧
      (download_model ienv).result = .failure (dlStatusErr st) ∧
      (download_model ienv).file = ienv.preFile) ∧
    (st ≠ 200 → st ≠ 401 → st ≠ 403 → st ≠ 404 → st ≠ 429 →
      (api_download env).result = .err (.dlHttp st) ∧
      (api_download env).file = env.preFile) ∧
    (400 ≤ st → st ≤ 599 → st ≠ 401 → st ≠ 403 → st ≠ 404 → st ≠ 429 →
      (download_model ienv).result = .failure (.dlHttp st) ∧
      (download_model ienv).file = none) := by
  refine ⟨?_, ?_, ?_⟩
  · rintro (rfl | rfl | rfl | rfl) <;>
      simp [api_download, api_core, download_model, download_core, ha1, ha2, ha3, ha4,
        ha5, ha6, ha7, hb0, hb1, hb2, hb6, hb7, get_model_info, dlStatusErr]
  · intro h200 h401 h403 h404 h429
    simp [api_download, api_core, ha1, ha2, ha3, ha4, ha5, ha6, ha7, get_model_info,
      h200, h401, h403, h404, h429]
  · intro hlo hhi h401 h403 h404 h429
    simp [download_model, download_core, hb0, hb1, hb2, ha3, ha4, ha5, hb6, hb7,
      get_model_info, h401, h403, h404, h429, hlo, hhi]

/-- Witness for the amended C7 at status 500 with a 400-byte chunk
available and a preexisting 77-byte destination file. -/
theorem c7_status_inspection_witness :
    ((extract_model_id aenvC7.modelLookup (some aenvC7.url)).1 = .ok "9" ∧
     aenvC7.versionLookup = .resp 200 infoC7 ∧
     infoC7.files = some [⟨some "lora.safetensors", some "https://dl"⟩] ∧
     aenvC7.mkdirOk = true ∧
     aenvC7.dl = .resp 500 [400] none ∧
     pyTruthy envC7i.url = true ∧
     (extract_model_id envC7i.modelLookup envC7i.url).1 = .ok "9" ∧
     envC7i.versionLookup = .resp 200 infoC7 ∧
     envC7i.mkdirOk = true ∧
     envC7i.dl = .resp 500 [400] none) ∧
    (((500 : Nat) = 401 ∨ (500 : Nat) = 403 ∨ (500 : Nat) = 404 ∨ (500 : Nat) = 429 →
       (api_download aenvC7).result = .err (dlStatusErr 500) ∧
       (api_download aenvC7).file = aenvC7.preFile ∧
       (download_model envC7i).result = .failure (dlStatusErr 500) ∧
       (download_model envC7i).file = envC7i.preFile) ∧
     ((500 : Nat) ≠ 200 → (500 : Nat) ≠ 401 → (500 : Nat) ≠ 403 → (500 : Nat) ≠ 404 →
       (500 : Nat) ≠ 429 →
       (api_download aenvC7).result = .err (.dlHttp 500) ∧
       (api_download aenvC7).file = aenvC7.preFile) ∧
     (400 ≤ (500 : Nat) → (500 : Nat) ≤ 599 → (500 : Nat) ≠ 401 → (500 : Nat) ≠ 403 →
       (500 : Nat) ≠ 404 → (500 : Nat) ≠ 429 →
       (download_model envC7i).result = .failure (.dlHttp 500) ∧
       (download_model envC7i).file = none)) :=
  ⟨⟨by decide, rfl, by decide, rfl, rfl, by decide, by decide, rfl, rfl, rfl⟩,
   c7_status_inspection aenvC7 envC7i "9" infoC7
     ⟨some "lora.safetensors", some "https://dl"⟩ [] "https://dl" "lora.safetensors"
     500 [400] none (by decide) rfl (by decide) (by decide) (by decide) rfl rfl
     (by decide) (by decide) rfl rfl rfl⟩

/-- Claim C8: for every download (interactive or programmatic) that
reaches the streaming stage and whose stream completes leaving a
zero-length destination file, the file is deleted and the outcome is the
EmptyFileError classification. -/
theorem c8_empty_file_deleted (env : ApiEnv) (ienv : Env) (vid : String)
    (info : ModelInfo) (fi : FileEntry) (rest : List FileEntry) (du fn : String)
    (chunks : List Nat)
    (ha1 : (extract_model_id env.modelLookup (some env.url)).1 = .ok vid)
    (ha2 : env.versionLookup = .resp 200 info)
    (ha3 : info.files = some (fi :: rest))
    (ha4 : fi.downloadUrl = some du)
    (ha5 : fi.name = some fn)
    (ha6 : env.mkdirOk = true)
    (ha7 : env.dl = .resp 200 chunks none)
    (hb0 : pyTruthy ienv.url = true)
    (hb1 : (extract_model_id ienv.modelLookup ienv.url).1 = .ok vid)
    (hb2 : ienv.versionLookup = .resp 200 info)
    (hb6 : ienv.mkdirOk = true)
    (hb7 : ienv.dl = .resp 200 chunks none)
    (hsum : chunks.sum = 0) :
    (api_download env).result = .err .emptyFile ∧
    (api_download env).file = none ∧
    (download_model ienv).result = .failure .emptyFile ∧
    (download_model ienv).file = none := by
  simp [api_download, api_core, download_model, download_core, ha1, ha2, ha3, ha4, ha5,
    ha6, ha7, hb0, hb1, hb2, hb6, hb7, get_model_info, hsum]

/-- Witness for C8: the stream completes after two empty keep-alive
chunks. -/
theorem c8_empty_file_deleted_witness :
    ((extract_model_id aenvC8.modelLookup (some aenvC8.url)).1 = .ok "9" ∧
     aenvC8.versionLookup = .resp 200 infoC7 ∧
     aenvC8.dl = .resp 200 [0, 0] none ∧
     envC8i.dl = .resp 200 [0, 0] none ∧
     List.sum [0, 0] = 0) ∧
    ((api_download aenvC8).result = .err .emptyFile ∧
     (api_download aenvC8).file = none ∧
     (download_model envC8i).result = .failure .emptyFile ∧
     (download_model envC8i).file = none) :=
  ⟨⟨by decide, rfl, rfl, rfl, rfl⟩,
   c8_empty_file_deleted aenvC8 envC8i "9" infoC7
     ⟨some "lora.safetensors", some "https://dl"⟩ [] "https://dl" "lora.safetensors"
     [0, 0] (by decide) rfl (by decide) (by decide) (by decide) rfl rfl (by decide)
     (by decide) rfl rfl rfl rfl⟩

/-- Claim C9 (code bug): the version-by-id endpoint answers 200 with a
first file entry that has no `downloadUrl` key.  The handler raises
KeyError at `file_info['downloadUrl']` (civitai_api.py line 94); matching
the except clauses then evaluates the function-local name `requests`,
which is bound only by the later `import requests` statement (line 113),
so an UnboundLocalError escapes the handler as an unhandled fault instead
of the structured HTTP-200 failure payload the claim (and the handler's
own generic `except Exception` clause) intends. -/
theorem c9_api_handler_unhandled_fault :
    aenvC9.versionLookup =
      .resp 200 ⟨some [⟨some "lora.safetensors", none⟩], some "M", some "V"⟩ ∧
    (api_download aenvC9).result = .fault ∧
    (api_download aenvC9).result.isOk = false := by decide

end Civitai
